import Mathlib

/-!
Shallow embedding of the asset-generation subsystem of the repository
(src/ai_image_generator.py and src/gpt_site_generator.py), together with
proofs settling the specification claims about it.

Conventions used throughout:
* Python strings are Lean `String`s; `keyword in text` (contiguous substring
  membership) is modelled by `strContains`.
* Python `list[i % len(list)]` is modelled by `List.getD (i % length) ""`,
  which agrees with the source because the index is always in range on the
  non-empty literal lists involved.
* The ambient Python `hash` on strings (fixed within one interpreter run) is
  modelled by an arbitrary parameter `h : String -> Nat`; `hash(p) % n` in the
  source corresponds to `h p % n` here.
* Network responses, credential presence and filesystem outcomes are inputs
  to the embedded functions, so one call of an embedded function models one
  run of the corresponding source function under those external outcomes.
-/

/-- `charsContain needle hay` decides whether `needle` occurs as a contiguous
sublist of `hay`; it models Python `needle in hay` on strings. -/
def charsContain (needle : List Char) : List Char → Bool
  | [] => needle.isEmpty
  | c :: rest => needle.isPrefixOf (c :: rest) || charsContain needle rest

/-- `strContains hay needle` models the Python expression `needle in hay`. -/
def strContains (hay needle : String) : Bool :=
  charsContain needle.data hay.data

/-- Character-wise lower-casing; models Python `str.lower()` on the ASCII
text this program handles. -/
def lowerStr (s : String) : String :=
  String.mk (s.data.map Char.toLower)

/-- Technology keyword list of `AIImageGenerator.categorize_product`. -/
def tech_keywords : List String :=
  ["smart", "ai", "tech", "app", "software", "digital", "robot", "drone",
   "gadget", "device", "electronic", "computer", "mobile", "laptop", "camera",
   "headphone", "speaker", "watch"]

/-- Food and beverage keyword list of `AIImageGenerator.categorize_product`. -/
def food_keywords : List String :=
  ["food", "drink", "coffee", "tea", "restaurant", "cafe", "kitchen",
   "recipe", "meal", "pizza", "burger", "cake", "wine", "beer", "juice",
   "bakery"]

/-- Fashion keyword list of `AIImageGenerator.categorize_product`. -/
def fashion_keywords : List String :=
  ["fashion", "clothing", "style", "dress", "shirt", "pants", "shoes", "bag",
   "accessory", "jewelry", "boutique", "designer", "apparel"]

/-- Health and wellness keyword list of `AIImageGenerator.categorize_product`. -/
def health_keywords : List String :=
  ["health", "wellness", "fitness", "yoga", "gym", "medical", "therapy",
   "nutrition", "vitamin", "supplement", "exercise", "workout", "spa"]

/-- Business keyword list of `AIImageGenerator.categorize_product`. -/
def business_keywords : List String :=
  ["business", "corporate", "company", "service", "consulting",
   "professional", "office", "team", "solution", "agency", "marketing"]

/-- Whether some keyword of `kws` occurs in the (already lower-cased) name;
models one `for keyword in ...: if keyword in product_lower: return ...` loop
of `categorize_product`. -/
def keywordHit (product_lower : String) (kws : List String) : Bool :=
  kws.any fun kw => strContains product_lower kw

/-- `AIImageGenerator.categorize_product` (src/ai_image_generator.py,
lines 81-120): lower-case the name, scan the five keyword lists in their
fixed order, return the tag of the first list with a substring hit, and
fall back to the string "technology" when nothing matches. -/
def categorize_product (product_name : String) : String :=
  let product_lower := lowerStr product_name
  if keywordHit product_lower tech_keywords then "technology"
  else if keywordHit product_lower food_keywords then "food_beverage"
  else if keywordHit product_lower fashion_keywords then "fashion"
  else if keywordHit product_lower health_keywords then "health_wellness"
  else if keywordHit product_lower business_keywords then "business"
  else "technology"

/-- The ordered category table of `categorize_product`, used to phrase the
first-match property. -/
def category_keyword_sets : List (String × List String) :=
  [("technology", tech_keywords), ("food_beverage", food_keywords),
   ("fashion", fashion_keywords), ("health_wellness", health_keywords),
   ("business", business_keywords)]

/-- Out-of-range-safe list indexing used to model Python `xs[i % len(xs)]`;
every use in this file has the index in range on a non-empty literal list,
so the `""` default is never produced. -/
def listGet (l : List String) (i : Nat) : String :=
  l.getD i ""

/-- One entry of `AIImageGenerator.themes`: parallel style, environment and
lighting phrase arrays for a category. -/
structure ThemeData where
  styles : List String
  environments : List String
  lighting : List String
deriving DecidableEq

/-- `self.themes['technology']` (src/ai_image_generator.py, lines 30-34). -/
def technology_theme : ThemeData where
  styles := ["futuristic", "sleek modern", "minimalist tech", "cyberpunk",
             "professional studio"]
  environments := ["clean white background", "modern office setting",
                   "futuristic lab", "tech workspace", "gradient backdrop"]
  lighting := ["studio lighting", "LED accent lighting", "soft ambient glow",
               "dramatic tech lighting", "natural daylight"]

/-- `self.themes['food_beverage']` (src/ai_image_generator.py, lines 35-39). -/
def food_beverage_theme : ThemeData where
  styles := ["appetizing commercial", "rustic artisan", "modern culinary",
             "cozy restaurant", "gourmet presentation"]
  environments := ["marble countertop", "wooden table setting",
                   "restaurant kitchen", "cafe atmosphere", "outdoor dining"]
  lighting := ["warm golden lighting", "soft natural light",
               "dramatic food photography", "cozy ambient lighting",
               "bright daylight"]

/-- `self.themes['fashion']` (src/ai_image_generator.py, lines 40-44). -/
def fashion_theme : ThemeData where
  styles := ["high fashion editorial", "street style casual",
             "luxury boutique", "trendy modern", "classic elegant"]
  environments := ["fashion studio backdrop", "urban street scene",
                   "luxury boutique", "minimalist setting",
                   "artistic backdrop"]
  lighting := ["professional fashion lighting", "natural portrait lighting",
               "dramatic fashion photography", "soft beauty lighting",
               "editorial lighting"]

/-- `self.themes['health_wellness']` (src/ai_image_generator.py, lines 45-49). -/
def health_wellness_theme : ThemeData where
  styles := ["clean wellness aesthetic", "natural organic",
             "medical professional", "fitness focused", "spa luxury"]
  environments := ["clean medical setting", "natural outdoor environment",
                   "modern gym", "spa atmosphere", "wellness center"]
  lighting := ["clean bright lighting", "soft natural lighting",
               "professional medical lighting", "warm wellness lighting",
               "energizing daylight"]

/-- `self.themes['business']` (src/ai_image_generator.py, lines 50-54). -/
def business_theme : ThemeData where
  styles := ["corporate professional", "modern business", "executive luxury",
             "startup innovative", "consulting expert"]
  environments := ["modern office", "conference room", "executive suite",
                   "business center", "corporate lobby"]
  lighting := ["professional office lighting", "executive lighting",
               "modern business lighting", "confident lighting",
               "corporate ambiance"]

/-- `self.themes.get(theme, self.themes['technology'])` in
`generate_prompt` (src/ai_image_generator.py, line 124): dictionary lookup
with the technology entry as the default for unknown categories. -/
def themeFor (theme : String) : ThemeData :=
  if theme = "technology" then technology_theme
  else if theme = "food_beverage" then food_beverage_theme
  else if theme = "fashion" then fashion_theme
  else if theme = "health_wellness" then health_wellness_theme
  else if theme = "business" then business_theme
  else technology_theme

/-- One entry of `AIImageGenerator.image_types`: the per-slot size,
description phrase and style modifier. -/
structure ImageConfig where
  size : String
  description : String
  style_modifier : String
deriving DecidableEq

/-- `self.image_types['hero_background']` (src/ai_image_generator.py). -/
def hero_background_config : ImageConfig where
  size := "1920x1080"
  description := "wide panoramic background image"
  style_modifier := "cinematic wide shot"

/-- `self.image_types['product_showcase']` (src/ai_image_generator.py). -/
def product_showcase_config : ImageConfig where
  size := "800x600"
  description := "product focused image"
  style_modifier := "product photography"

/-- `self.image_types['feature_icon']` (src/ai_image_generator.py). -/
def feature_icon_config : ImageConfig where
  size := "400x400"
  description := "feature illustration"
  style_modifier := "icon style graphic"

/-- `self.image_types['gallery_item']` (src/ai_image_generator.py). -/
def gallery_item_config : ImageConfig where
  size := "600x400"
  description := "lifestyle image"
  style_modifier := "lifestyle photography"

/-- `self.image_types.get(image_type, self.image_types['product_showcase'])`
in `generate_prompt` (src/ai_image_generator.py, line 125): dictionary
lookup with the product_showcase entry as the default for unknown slot
types. -/
def image_types_lookup (image_type : String) : ImageConfig :=
  if image_type = "hero_background" then hero_background_config
  else if image_type = "product_showcase" then product_showcase_config
  else if image_type = "feature_icon" then feature_icon_config
  else if image_type = "gallery_item" then gallery_item_config
  else product_showcase_config

/-- The fixed quality-modifier suffix appended at the end of
`generate_prompt` (src/ai_image_generator.py, line 143). -/
def quality_suffix : String :=
  ", 8K resolution, professional photography, commercial quality, detailed, vibrant colors"

/-- The slot-type branch of `generate_prompt` (src/ai_image_generator.py,
lines 133-140): the four f-string templates, with every slot type other
than the three named ones taking the gallery_item template. -/
def prompt_core (image_type : String) (cfg : ImageConfig)
    (product_name style environment lighting : String) : String :=
  if image_type = "hero_background" then
    "Professional " ++ style ++ " " ++ cfg.description ++ " featuring " ++
      product_name ++ ", " ++ environment ++ ", " ++ lighting ++ ", " ++
      cfg.style_modifier ++ ", high quality, detailed, commercial photography"
  else if image_type = "product_showcase" then
    style ++ " " ++ cfg.style_modifier ++ " of " ++ product_name ++ ", " ++
      environment ++ ", " ++ lighting ++
      ", professional commercial quality, detailed, sharp focus"
  else if image_type = "feature_icon" then
    "Modern " ++ cfg.style_modifier ++ " representing " ++ product_name ++
      " features, " ++ style ++ " design, clean, professional, " ++ lighting
  else
    style ++ " " ++ cfg.style_modifier ++ " showing " ++ product_name ++
      " in use, " ++ environment ++ ", " ++ lighting ++
      ", realistic, high quality"

/-- `theme_data['styles'][variation % len(theme_data['styles'])]` in
`generate_prompt` (src/ai_image_generator.py, line 128). -/
def selectedStyle (theme : String) (variation : Nat) : String :=
  listGet (themeFor theme).styles (variation % (themeFor theme).styles.length)

/-- `theme_data['environments'][variation % len(theme_data['environments'])]`
in `generate_prompt` (src/ai_image_generator.py, line 129). -/
def selectedEnvironment (theme : String) (variation : Nat) : String :=
  listGet (themeFor theme).environments
    (variation % (themeFor theme).environments.length)

/-- `theme_data['lighting'][variation % len(theme_data['lighting'])]` in
`generate_prompt` (src/ai_image_generator.py, line 130). -/
def selectedLighting (theme : String) (variation : Nat) : String :=
  listGet (themeFor theme).lighting
    (variation % (themeFor theme).lighting.length)

/-- `AIImageGenerator.generate_prompt` (src/ai_image_generator.py,
lines 122-145): look up the theme and slot configuration (with defaults),
select style, environment and lighting by modulo indexing on the variation
counter, instantiate the slot template and append the quality suffix. -/
def generate_prompt (product_name image_type theme : String)
    (variation : Nat) : String :=
  prompt_core image_type (image_types_lookup image_type) product_name
    (selectedStyle theme variation) (selectedEnvironment theme variation)
    (selectedLighting theme variation) ++ quality_suffix

/-- The coarse fallback domains of `get_smart_fallback_image`
(src/gpt_site_generator.py, lines 106-151), in their source order. -/
inductive FallbackDomain where
  | tech
  | fashion
  | food
  | health
deriving DecidableEq

/-- Technology branch keywords of `get_smart_fallback_image`. -/
def fallback_tech_keywords : List String :=
  ["laptop", "computer", "gaming", "mouse", "keyboard", "phone", "smartphone",
   "tablet", "headphones", "tech", "electronic", "device", "gadget"]

/-- Fashion branch keywords of `get_smart_fallback_image`. -/
def fallback_fashion_keywords : List String :=
  ["fashion", "clothing", "accessory", "bag", "handbag", "watch", "jewelry",
   "shoes", "apparel"]

/-- Food branch keywords of `get_smart_fallback_image`. -/
def fallback_food_keywords : List String :=
  ["coffee", "food", "beverage", "drink", "kitchen", "cooking", "restaurant",
   "culinary"]

/-- Health branch keywords of `get_smart_fallback_image`. -/
def fallback_health_keywords : List String :=
  ["health", "fitness", "wellness", "medical", "yoga", "exercise",
   "supplement", "beauty"]

/-- The `tech_images` list of `get_smart_fallback_image`. -/
def tech_fallback_images : List String :=
  ["https://images.unsplash.com/photo-1593642632823-8f785ba67e45?w=800&h=600&fit=crop&q=80",
   "https://images.unsplash.com/photo-1542751371-adc38448a05e?w=800&h=600&fit=crop&q=80",
   "https://images.unsplash.com/photo-1583394838336-acd977736f90?w=800&h=600&fit=crop&q=80",
   "https://images.unsplash.com/photo-1511707171634-5f897ff02aa9?w=800&h=600&fit=crop&q=80"]

/-- The `fashion_images` list of `get_smart_fallback_image`. -/
def fashion_fallback_images : List String :=
  ["https://images.unsplash.com/photo-1553062407-98eeb64c6a62?w=800&h=600&fit=crop&q=80",
   "https://images.unsplash.com/photo-1594223274512-ad4803739b7c?w=800&h=600&fit=crop&q=80",
   "https://images.unsplash.com/photo-1549298916-b41d501d3772?w=800&h=600&fit=crop&q=80",
   "https://images.unsplash.com/photo-1492707892479-7bc8d5a4ee93?w=800&h=600&fit=crop&q=80"]

/-- The `food_images` list of `get_smart_fallback_image`. -/
def food_fallback_images : List String :=
  ["https://images.unsplash.com/photo-1447933601403-0c6688de566e?w=800&h=600&fit=crop&q=80",
   "https://images.unsplash.com/photo-1556909114-f6e7ad7d3136?w=800&h=600&fit=crop&q=80",
   "https://images.unsplash.com/photo-1498837167922-ddd27525d352?w=800&h=600&fit=crop&q=80",
   "https://images.unsplash.com/photo-1555126634-323283e090fa?w=800&h=600&fit=crop&q=80"]

/-- The `health_images` list of `get_smart_fallback_image`. -/
def health_fallback_images : List String :=
  ["https://images.unsplash.com/photo-1571019613454-1cb2f99b2d8b?w=800&h=600&fit=crop&q=80",
   "https://images.unsplash.com/photo-1544367567-0f2fcb009e0b?w=800&h=600&fit=crop&q=80",
   "https://images.unsplash.com/photo-1505751172876-fa1923c5c528?w=800&h=600&fit=crop&q=80",
   "https://images.unsplash.com/photo-1559056199-641a0ac8b55e?w=800&h=600&fit=crop&q=80"]

/-- The single default asset URL returned by `get_smart_fallback_image`
when no domain keyword matches. -/
def default_fallback_image : String :=
  "https://images.unsplash.com/photo-1560472354-b33ff0c44a43?w=800&h=600&fit=crop&q=80"

/-- The keyword list a fallback domain tests against the prompt. -/
def domainKeywords : FallbackDomain → List String
  | .tech => fallback_tech_keywords
  | .fashion => fallback_fashion_keywords
  | .food => fallback_food_keywords
  | .health => fallback_health_keywords

/-- The fixed asset list a fallback domain draws from. -/
def domainImages : FallbackDomain → List String
  | .tech => tech_fallback_images
  | .fashion => fashion_fallback_images
  | .food => food_fallback_images
  | .health => health_fallback_images

/-- The first fallback domain (in source order) whose keyword list hits the
lower-cased prompt, if any; mirrors the if/elif chain of
`get_smart_fallback_image`. -/
def fallbackDomainOf (prompt : String) : Option FallbackDomain :=
  let pl := lowerStr prompt
  if keywordHit pl fallback_tech_keywords then some .tech
  else if keywordHit pl fallback_fashion_keywords then some .fashion
  else if keywordHit pl fallback_food_keywords then some .food
  else if keywordHit pl fallback_health_keywords then some .health
  else none

/-- `get_smart_fallback_image` (src/gpt_site_generator.py, lines 106-151):
classify the lower-cased prompt into the first matching domain and pick
`images[hash(prompt) % len(images)]` from that domain; return the single
default URL when no keyword matches. `h` stands for the ambient Python
string hash composed with the nonnegative Python `%`. -/
def get_smart_fallback_image (h : String → Nat) (prompt : String) : String :=
  match fallbackDomainOf prompt with
  | some d => listGet (domainImages d) (h prompt % (domainImages d).length)
  | none => default_fallback_image

/-- The full known set of URLs `get_smart_fallback_image` can return. -/
def fallback_known_set : List String :=
  tech_fallback_images ++ fashion_fallback_images ++ food_fallback_images ++
    health_fallback_images ++ [default_fallback_image]

/-- Outcome of the single DALL-E call attempted by
`generate_product_image` (src/gpt_site_generator.py, lines 30-73); every
constructor other than `success` is one of the except/empty-data paths of
the source, all of which end in the fallback resolver. -/
inductive DalleOutcome where
  | success (url : String)
  | emptyData
  | rateLimitError
  | badRequestError
  | otherError
deriving DecidableEq

/-- `generate_product_image` (src/gpt_site_generator.py, lines 30-73): with
no valid OpenAI key, or on any non-success outcome of the DALL-E call,
return `get_smart_fallback_image(prompt)`; on success return the hosted
URL. `keyValid` models `openai_api_key` being present and not the
placeholder value. -/
def generate_product_image (h : String → Nat) (keyValid : Bool)
    (outcome : DalleOutcome) (prompt : String) : String :=
  if keyValid then
    match outcome with
    | .success url => url
    | _ => get_smart_fallback_image h prompt
  else get_smart_fallback_image h prompt

/-- Trace of one iteration of the provider cascade inside
`AIImageGenerator.generate_product_images` (src/ai_image_generator.py,
lines 358-385): the locator produced for one requested image, and which of
the three adapters were invoked. External outcomes are inputs:
`dalleResult` is the return of `generate_with_openai_dalle`,
`downloadResult` the return of `download_image` on its URL,
`stabilityResult` the return of `generate_with_stability_ai`, and
`hfResult` the saved path when `generate_with_huggingface` returns content
(`none` when it raises, which the source catches). -/
structure CascadeTrace where
  image_path : Option String
  dalle_called : Bool
  stability_called : Bool
  huggingface_called : Bool
deriving DecidableEq

/-- The per-image provider cascade of `generate_product_images`
(src/ai_image_generator.py, lines 358-385), as a function of the preference
string and the external outcomes. -/
def try_providers (pref : String) (dalleResult : Option String)
    (downloadResult : Option String) (stabilityResult : Option String)
    (hfResult : Option String) : CascadeTrace :=
  let dalleTried := pref == "dalle" || pref == "auto"
  let pathA : Option String :=
    if dalleTried then
      match dalleResult with
      | some _ => downloadResult
      | none => none
    else none
  let stabilityTried := pathA.isNone && (pref == "stability" || pref == "auto")
  let pathB : Option String := if stabilityTried then stabilityResult else pathA
  let hfTried := pathB.isNone && (pref == "huggingface" || pref == "auto")
  let pathC : Option String := if hfTried then hfResult else pathB
  { image_path := pathC
    dalle_called := dalleTried
    stability_called := stabilityTried
    huggingface_called := hfTried }

/-- Primary model endpoint of `generate_with_huggingface`. -/
def hf_primary_model : String :=
  "https://api-inference.huggingface.co/models/stabilityai/stable-diffusion-2-1"

/-- Simpler fallback model endpoint of `generate_with_huggingface`. -/
def hf_simple_model : String :=
  "https://api-inference.huggingface.co/models/runwayml/stable-diffusion-v1-5"

/-- The sequence of endpoints `generate_with_huggingface`
(src/ai_image_generator.py, lines 262-311) sends HTTP POST requests to,
given the HTTP status code of each successive request (`status n` is the
status of request number `n`, counted from 0). With no token the source
raises before any request. The source logic: request the primary model; on
503 wait and request the primary model once more; if the latest status is
still not 200, request the simpler model once; then return content or
raise. -/
def huggingface_requests (tokenPresent : Bool) (status : Nat → Nat) :
    List String :=
  if tokenPresent then
    if status 0 == 200 then [hf_primary_model]
    else if status 0 == 503 then
      if status 1 == 200 then [hf_primary_model, hf_primary_model]
      else [hf_primary_model, hf_primary_model, hf_simple_model]
    else [hf_primary_model, hf_simple_model]
  else []

/-- The per-slot locator lists accumulated by `generate_product_images`;
field names follow the keys of its `generated_images` dictionary. -/
structure GeneratedImages where
  hero_background : List String
  product_showcase : List String
  feature_icons : List String
  gallery_items : List String
deriving DecidableEq

/-- The dictionary returned by `generate_for_website`
(src/ai_image_generator.py, lines 403-423), minus the timestamp field
(wall-clock time is outside the embedding). -/
structure WebsiteResult where
  success : Bool
  product_name : String
  category : String
  images : GeneratedImages
  total_images : Nat
deriving DecidableEq

/-- The output directory `self.output_dir` of `AIImageGenerator`. -/
def output_dir : String := "generated_images"

/-- The number of collected locators across all four slot lists; models
`sum(len(paths) for paths in images.values())`. -/
def totalCollected (g : GeneratedImages) : Nat :=
  g.hero_background.length + g.product_showcase.length +
    g.feature_icons.length + g.gallery_items.length

/-- `AIImageGenerator.generate_for_website` (src/ai_image_generator.py,
lines 403-423) as a function of the locator lists its call to
`generate_product_images` produced: rewrite each local path to a
web-relative path, report the total image count, and set `success` to the
literal `True`. -/
def generate_for_website (product_name : String) (images : GeneratedImages) :
    WebsiteResult :=
  let toWeb := fun (paths : List String) =>
    paths.map fun p => p.replace output_dir "/generated_images"
  { success := true
    product_name := product_name
    category := categorize_product product_name
    images :=
      { hero_background := toWeb images.hero_background
        product_showcase := toWeb images.product_showcase
        feature_icons := toWeb images.feature_icons
        gallery_items := toWeb images.gallery_items }
    total_images := totalCollected images }

/-- Whether no keyword of any of the five category keyword lists occurs in
the lower-cased name: the no-match branch condition of
`categorize_product`. -/
def matchesNoCategory (name : String) : Bool :=
  category_keyword_sets.all fun p => !(keywordHit (lowerStr name) p.2)

/-- An 801-character product name, used to exercise `generate_prompt` on an
input long enough to push the prompt past 800 characters. -/
def bigName : String :=
  String.mk (List.replicate 801 'a')

/-- The tag of the position-`i` entry of the ordered category table. -/
def categoryTag (i : Nat) : String :=
  (category_keyword_sets.getD i ("", [])).1

/-- The keyword list of the position-`i` entry of the ordered category
table. -/
def categoryKeywords (i : Nat) : List String :=
  (category_keyword_sets.getD i ("", [])).2

/-- `listGet` never leaves the list when the index is in range. -/
theorem listGet_mem (l : List String) (n : Nat) (h : n < l.length) :
    listGet l n ∈ l := by
  unfold listGet
  rw [List.getD_eq_getElem l "" h]
  exact List.getElem_mem h

/-- `themeFor` only ever produces one of the five theme records. -/
theorem themeFor_cases (th : String) :
    themeFor th = technology_theme ∨ themeFor th = food_beverage_theme ∨
    themeFor th = fashion_theme ∨ themeFor th = health_wellness_theme ∨
    themeFor th = business_theme := by
  unfold themeFor
  split_ifs <;> simp

/-- Unknown category strings resolve to the technology theme record. -/
theorem themeFor_unknown (th : String)
    (h : th ∉ (["technology", "food_beverage", "fashion", "health_wellness",
                "business"] : List String)) :
    themeFor th = technology_theme := by
  unfold themeFor
  split_ifs with h1 h2 h3 h4 h5 <;> simp_all

/-- Unknown slot-type strings resolve to the product_showcase slot
configuration. -/
theorem image_types_lookup_unknown (t : String)
    (h : t ∉ (["hero_background", "product_showcase", "feature_icon",
               "gallery_item"] : List String)) :
    image_types_lookup t = product_showcase_config := by
  unfold image_types_lookup
  split_ifs with h1 h2 h3 h4 <;> simp_all

/-- The length of a synthesized prompt splits into the product name length
plus the name-independent template length. -/
theorem generate_prompt_length_split (name t th : String) (i : Nat) :
    (generate_prompt name t th i).length =
      name.length + (generate_prompt "" t th i).length := by
  unfold generate_prompt prompt_core
  split_ifs <;> simp [String.length_append] <;> omega

/-- All three parallel arrays of every reachable theme record have length 5. -/
theorem themeFor_lengths (th : String) :
    (themeFor th).styles.length = 5 ∧ (themeFor th).environments.length = 5 ∧
    (themeFor th).lighting.length = 5 := by
  rcases themeFor_cases th with h | h | h | h | h <;> rw [h] <;>
    exact ⟨rfl, rfl, rfl⟩

set_option maxRecDepth 100000 in
/-- The name-independent part of every synthesized prompt is between 80 and
290 characters long. -/
theorem generate_prompt_base_bounds (t th : String) (i : Nat) :
    80 ≤ (generate_prompt "" t th i).length ∧
    (generate_prompt "" t th i).length ≤ 290 := by
  obtain ⟨h5s, h5e, h5l⟩ := themeFor_lengths th
  obtain ⟨j, hj, hg⟩ : ∃ j, j < 5 ∧ i % 5 = j :=
    ⟨i % 5, Nat.mod_lt _ (by decide), rfl⟩
  simp only [generate_prompt, selectedStyle, selectedEnvironment,
    selectedLighting, h5s, h5e, h5l, hg]
  have ht : t = "hero_background" ∨ t = "product_showcase" ∨
      t = "feature_icon" ∨ t = "gallery_item" ∨
      (¬t = "hero_background" ∧ ¬t = "product_showcase" ∧
       ¬t = "feature_icon" ∧ ¬t = "gallery_item") := by tauto
  rcases themeFor_cases th with h | h | h | h | h <;> rw [h] <;>
    rcases ht with ht | ht | ht | ht | ⟨ht1, ht2, ht3, ht4⟩ <;>
    first
      | (subst ht; interval_cases j <;> decide)
      | (simp only [prompt_core, image_types_lookup, if_neg ht1, if_neg ht2,
          if_neg ht3, if_neg ht4];
         interval_cases j <;> decide)

set_option maxRecDepth 40000 in
/-- Claim C2, counterexample: the name "zzz" contains no keyword of any
category keyword set, yet `categorize_product` returns "technology", not
the claimed "general" tag. -/
theorem categorize_no_match_counterexample :
    matchesNoCategory "zzz" = true ∧ categorize_product "zzz" ≠ "general" := by
  decide

/-- Claim C2, amended: lower-casing the input and testing substring
membership in the fixed order, `categorize_product` returns the tag of the
first keyword set with a match, and for a name matching no keyword set it
returns the default tag "technology" (not "general"). This theorem is the
default-tag half; the first-match half is the first-match theorem below. -/
theorem categorize_no_match_default :
    ∀ name, matchesNoCategory name = true →
      categorize_product name = "technology" := by
  intro name h
  simp only [matchesNoCategory, category_keyword_sets, List.all_cons,
    List.all_nil, Bool.and_true, Bool.and_eq_true, Bool.not_eq_true'] at h
  obtain ⟨h1, h2, h3, h4, h5⟩ := h
  simp [categorize_product, h1, h2, h3, h4, h5]

theorem categorize_no_match_default_witness :
    categorize_product "zzz" = "technology" :=
  categorize_no_match_default "zzz" (by decide)

set_option maxRecDepth 40000 in
/-- Claim C8: first-match categorization order. If the keyword set at
position `i` of the fixed order matches the lower-cased name and no
earlier set does, `categorize_product` returns the tag at position `i`,
regardless of matches at later positions; in particular
`categorize_product "smart coffee maker" = "technology"` because the
technology set is checked before the food_beverage set. -/
theorem categorize_first_match :
    (∀ (name : String) (i : Nat), i < category_keyword_sets.length →
      keywordHit (lowerStr name) (categoryKeywords i) = true →
      (∀ k, k < i → keywordHit (lowerStr name) (categoryKeywords k) = false) →
      categorize_product name = categoryTag i) ∧
    categorize_product "smart coffee maker" = "technology" := by
  constructor
  · intro name i hi hmatch hearlier
    have hi5 : i < 5 := hi
    interval_cases i
    · rw [show categoryKeywords 0 = tech_keywords from rfl] at hmatch
      simp [categorize_product, hmatch]
      rfl
    · rw [show categoryKeywords 1 = food_keywords from rfl] at hmatch
      have h0 : keywordHit (lowerStr name) tech_keywords = false :=
        hearlier 0 (by omega)
      simp [categorize_product, h0, hmatch]
      rfl
    · rw [show categoryKeywords 2 = fashion_keywords from rfl] at hmatch
      have h0 : keywordHit (lowerStr name) tech_keywords = false :=
        hearlier 0 (by omega)
      have h1 : keywordHit (lowerStr name) food_keywords = false :=
        hearlier 1 (by omega)
      simp [categorize_product, h0, h1, hmatch]
      rfl
    · rw [show categoryKeywords 3 = health_keywords from rfl] at hmatch
      have h0 : keywordHit (lowerStr name) tech_keywords = false :=
        hearlier 0 (by omega)
      have h1 : keywordHit (lowerStr name) food_keywords = false :=
        hearlier 1 (by omega)
      have h2 : keywordHit (lowerStr name) fashion_keywords = false :=
        hearlier 2 (by omega)
      simp [categorize_product, h0, h1, h2, hmatch]
      rfl
    · rw [show categoryKeywords 4 = business_keywords from rfl] at hmatch
      have h0 : keywordHit (lowerStr name) tech_keywords = false :=
        hearlier 0 (by omega)
      have h1 : keywordHit (lowerStr name) food_keywords = false :=
        hearlier 1 (by omega)
      have h2 : keywordHit (lowerStr name) fashion_keywords = false :=
        hearlier 2 (by omega)
      have h3 : keywordHit (lowerStr name) health_keywords = false :=
        hearlier 3 (by omega)
      simp [categorize_product, h0, h1, h2, h3, hmatch]
      rfl
  · decide

theorem categorize_first_match_witness :
    categorize_product "smart coffee maker" = categoryTag 0 :=
  categorize_first_match.1 "smart coffee maker" 0 (by decide) (by decide)
    (fun k hk => absurd hk (Nat.not_lt_zero k))

set_option maxRecDepth 40000 in
/-- Claim C5: the deterministic fallback resolver is idempotent and
domain-stable. With the ambient string hash fixed (as it is within one
interpreter run), identical prompts resolve to the identical URL; a prompt
whose first matching fallback domain is `d` resolves to a member of
domain `d` fixed list; and the four domain lists are pairwise disjoint, so
the result is never drawn from another domain list. -/
theorem resolveFallback_deterministic :
    (∀ (h : String → Nat) (p q : String), p = q →
      get_smart_fallback_image h p = get_smart_fallback_image h q) ∧
    (∀ (h : String → Nat) (p : String) (d : FallbackDomain),
      fallbackDomainOf p = some d →
      get_smart_fallback_image h p ∈ domainImages d) ∧
    (∀ d d' : FallbackDomain, d ≠ d' →
      ∀ u ∈ domainImages d, u ∉ domainImages d') := by
  refine ⟨fun h p q hpq => by rw [hpq], fun h p d hd => ?_,
    fun d d' hne => ?_⟩
  · unfold get_smart_fallback_image
    rw [hd]
    apply listGet_mem
    have hlen : (domainImages d).length = 4 := by cases d <;> rfl
    rw [hlen]
    exact Nat.mod_lt _ (by decide)
  · cases d <;> cases d' <;> first | exact absurd rfl hne | decide

theorem resolveFallback_deterministic_witness :
    get_smart_fallback_image (fun _ => 2) "gaming laptop" ∈
      domainImages FallbackDomain.tech :=
  resolveFallback_deterministic.2.1 (fun _ => 2) "gaming laptop"
    FallbackDomain.tech (by decide)

/-- Claim C1, counterexample: in the three-adapter cascade of
`generate_product_images` under preference "auto", when the DALL-E,
Stability and Hugging Face adapters all fail permanently, the per-image
acquisition yields no locator at all — the deterministic fallback resolver
is never consulted in that pipeline, so no member of its known set is
returned. -/
theorem acquire_exhaustion_counterexample :
    (try_providers "auto" none none none none).image_path = none := by
  rfl

set_option maxRecDepth 40000 in
/-- Claim C1, amended: the exhaustion guarantee holds for the
single-provider acquire `generate_product_image` of
src/gpt_site_generator.py. Whenever the OpenAI key is invalid or the
DALL-E call fails (quota, content policy, empty data or any other error),
the function returns `get_smart_fallback_image(prompt)` without raising,
and that locator is a non-empty member of the fallback resolver fixed
known set. -/
theorem acquire_failure_returns_known_fallback :
    ∀ (h : String → Nat) (keyValid : Bool) (outcome : DalleOutcome)
      (prompt : String),
      (keyValid = false ∨ ∀ url, outcome ≠ DalleOutcome.success url) →
      generate_product_image h keyValid outcome prompt =
        get_smart_fallback_image h prompt ∧
      get_smart_fallback_image h prompt ∈ fallback_known_set ∧
      get_smart_fallback_image h prompt ≠ "" := by
  intro h keyValid outcome prompt hfail
  have hmem : get_smart_fallback_image h prompt ∈ fallback_known_set := by
    unfold get_smart_fallback_image
    cases hdom : fallbackDomainOf prompt with
    | none =>
      show default_fallback_image ∈ fallback_known_set
      decide
    | some d =>
      have hsub : listGet (domainImages d) (h prompt % (domainImages d).length) ∈
          domainImages d := by
        apply listGet_mem
        have hlen : (domainImages d).length = 4 := by cases d <;> rfl
        rw [hlen]
        exact Nat.mod_lt _ (by decide)
      have hall : ∀ u ∈ domainImages d, u ∈ fallback_known_set := by
        cases d <;> decide
      exact hall _ hsub
  have hne : get_smart_fallback_image h prompt ≠ "" := by
    have hall : ∀ u ∈ fallback_known_set, u ≠ "" := by decide
    exact hall _ hmem
  refine ⟨?_, hmem, hne⟩
  rcases hfail with hk | ho
  · subst hk
    rfl
  · cases outcome with
    | success url => exact absurd rfl (ho url)
    | emptyData => cases keyValid <;> rfl
    | rateLimitError => cases keyValid <;> rfl
    | badRequestError => cases keyValid <;> rfl
    | otherError => cases keyValid <;> rfl

theorem acquire_failure_returns_known_fallback_witness :
    generate_product_image (fun _ => 3) false DalleOutcome.otherError
        "mystery object" =
      get_smart_fallback_image (fun _ => 3) "mystery object" ∧
    get_smart_fallback_image (fun _ => 3) "mystery object" ∈
      fallback_known_set ∧
    get_smart_fallback_image (fun _ => 3) "mystery object" ≠ "" :=
  acquire_failure_returns_known_fallback (fun _ => 3) false
    DalleOutcome.otherError "mystery object" (Or.inl rfl)

/-- Claim C3, counterexample: when the Hugging Face primary model answers
503 on the first request and on the retry (and the fallback model request
also fails), the adapter has issued 3 HTTP requests in that attempt, not
the claimed total of 2. -/
theorem busy_retry_counterexample :
    (huggingface_requests true (fun _ => 503)).length = 3 := by
  rfl

/-- Claim C3, amended: the Hugging Face adapter never issues more than
3 HTTP requests per attempt, and in the TransientBusy-twice scenario
(503 on the first request, non-200 on the retry) it issues exactly the
sequence primary, primary, simpler-fallback-model: the primary model is
retried exactly once after the fixed 10-second backoff, and the extra
third request targets the simpler model before the adapter raises. -/
theorem busy_retry_requests :
    (∀ (tok : Bool) (status : Nat → Nat),
      (huggingface_requests tok status).length ≤ 3) ∧
    (∀ status : Nat → Nat, status 0 = 503 → status 1 ≠ 200 →
      huggingface_requests true status =
        [hf_primary_model, hf_primary_model, hf_simple_model]) := by
  constructor
  · intro tok status
    unfold huggingface_requests
    split_ifs <;> simp
  · intro status h0 h1
    simp [huggingface_requests, h0, h1]

theorem busy_retry_requests_witness :
    huggingface_requests true (fun _ => 503) =
      [hf_primary_model, hf_primary_model, hf_simple_model] :=
  busy_retry_requests.2 (fun _ => 503) rfl (by decide)

/-- Claim C4, counterexample: under preference "auto", adapter A returns
Success (a hosted URL), the orchestrator download of that URL fails, and
the Stability adapter is then invoked — so a Success from A alone does not
guarantee call counts of 0 for B and C. -/
theorem short_circuit_counterexample :
    (try_providers "auto" (some "https://oaidalle.example/img.png") none
      (some "generated_images/stability_1.png") none).stability_called =
      true := by
  rfl

/-- Claim C4, amended: under preference "auto", if adapter A returns
Success and the orchestrator download of its hosted URL succeeds, then the
Stability and Hugging Face adapters are not invoked and the locator
returned is the downloaded local path of A asset; if the download fails,
the orchestrator falls through and invokes the Stability adapter. -/
theorem short_circuit_after_download :
    ∀ (url dl : String) (stab hf : Option String),
      try_providers "auto" (some url) (some dl) stab hf =
        { image_path := some dl, dalle_called := true,
          stability_called := false, huggingface_called := false } ∧
      (try_providers "auto" (some url) none stab hf).stability_called =
        true := by
  intro url dl stab hf
  exact ⟨rfl, rfl⟩

/-- Claim C9, counterexample: on a run in which every provider call
failed (no locator collected at all, so certainly no genuine success), the
website-integration output still reports `success = true` — the boolean is
not "true iff at least one genuine provider call succeeded". -/
theorem provenance_flag_counterexample :
    (generate_for_website "Widget"
      { hero_background := [], product_showcase := [],
        feature_icons := [], gallery_items := [] }).success = true ∧
    totalCollected
      { hero_background := [], product_showcase := [],
        feature_icons := [], gallery_items := [] } = 0 := by
  exact ⟨rfl, rfl⟩

/-- Claim C9, amended: the website-integration output includes an
integer total-image count equal to the number of collected locators, and a
boolean `success` field that is the hard-coded constant `True` and carries
no provenance information. -/
theorem website_result_fields :
    ∀ (name : String) (images : GeneratedImages),
      (generate_for_website name images).total_images =
        totalCollected images ∧
      (generate_for_website name images).success = true := by
  intro name images
  exact ⟨rfl, rfl⟩

/-- Claim C6, counterexample: `generate_prompt` applies no truncation, so
an 801-character product name already pushes the synthesized prompt past
the claimed 800-character ceiling. -/
theorem prompt_ceiling_counterexample :
    800 < (generate_prompt bigName "product_showcase" "technology" 0).length := by
  have hsplit :=
    generate_prompt_length_split bigName "product_showcase" "technology" 0
  have hbig : bigName.length = 801 := by
    exact List.length_replicate 801 'a'
  have hbase : 80 ≤ (generate_prompt "" "product_showcase" "technology" 0).length :=
    (generate_prompt_base_bounds _ _ _).1
  omega

/-- Claim C6, amended: the synthesizer performs no truncation; the
prompt length is exactly the product name length plus a name-independent
template length of at most 290 characters, so the prompt stays within the
800-character ceiling exactly for product names of bounded length (at most
510 characters), which covers every realistic product name. Truncation to
provider limits happens downstream in the adapters, not here. -/
theorem prompt_length_linear :
    ∀ (name t th : String) (i : Nat),
      (generate_prompt name t th i).length =
        name.length + (generate_prompt "" t th i).length ∧
      (generate_prompt "" t th i).length ≤ 290 ∧
      (name.length ≤ 510 → (generate_prompt name t th i).length ≤ 800) := by
  intro name t th i
  have hsplit := generate_prompt_length_split name t th i
  have hb := (generate_prompt_base_bounds t th i).2
  exact ⟨hsplit, hb, fun hn => by omega⟩

theorem prompt_length_linear_witness :
    (generate_prompt "Premium Headphones" "product_showcase" "technology"
      0).length ≤ 800 :=
  (prompt_length_linear "Premium Headphones" "product_showcase" "technology"
    0).2.2 (by decide)

/-- Claim C7: prompt variation cycling. For every category string and
variation index in the claimed range, the (style, environment, lighting)
triple selected at index `i + N` equals the triple at index `i`, where `N`
is the category style-array length; consequently the whole synthesized
prompt is identical at indices `i` and `i + N`. -/
theorem variation_cycling :
    ∀ (th : String) (i : Nat),
      i < 2 * (themeFor th).styles.length →
      ((selectedStyle th (i + (themeFor th).styles.length),
        selectedEnvironment th (i + (themeFor th).styles.length),
        selectedLighting th (i + (themeFor th).styles.length)) =
        (selectedStyle th i, selectedEnvironment th i,
         selectedLighting th i) ∧
       ∀ (name t : String),
         generate_prompt name t th (i + (themeFor th).styles.length) =
           generate_prompt name t th i) := by
  intro th i hi
  obtain ⟨h5s, h5e, h5l⟩ := themeFor_lengths th
  have hs : selectedStyle th (i + (themeFor th).styles.length) =
      selectedStyle th i := by
    unfold selectedStyle
    rw [h5s, Nat.add_mod_right]
  have he : selectedEnvironment th (i + (themeFor th).styles.length) =
      selectedEnvironment th i := by
    unfold selectedEnvironment
    rw [h5s, h5e, Nat.add_mod_right]
  have hl : selectedLighting th (i + (themeFor th).styles.length) =
      selectedLighting th i := by
    unfold selectedLighting
    rw [h5s, h5l, Nat.add_mod_right]
  refine ⟨by rw [hs, he, hl], fun name t => ?_⟩
  unfold generate_prompt
  rw [hs, he, hl]

theorem variation_cycling_witness :
    (selectedStyle "fashion" (3 + (themeFor "fashion").styles.length),
     selectedEnvironment "fashion" (3 + (themeFor "fashion").styles.length),
     selectedLighting "fashion" (3 + (themeFor "fashion").styles.length)) =
      (selectedStyle "fashion" 3, selectedEnvironment "fashion" 3,
       selectedLighting "fashion" 3) :=
  (variation_cycling "fashion" 3 (by decide)).1

/-- Claim C10: totality of prompt synthesis. For all input strings,
including a category outside the theme table and a slot type outside the
slot table, `generate_prompt` returns a non-empty string (the embedding is
total, as the source raises nothing on this path), an unknown category is
silently replaced by the technology theme, and an unknown slot type is
looked up as the product_showcase slot configuration. -/
theorem generate_prompt_total :
    ∀ (name t th : String) (i : Nat),
      (generate_prompt name t th i).length ≠ 0 ∧
      (th ∉ (["technology", "food_beverage", "fashion", "health_wellness",
              "business"] : List String) →
        generate_prompt name t th i =
          generate_prompt name t "technology" i) ∧
      (t ∉ (["hero_background", "product_showcase", "feature_icon",
             "gallery_item"] : List String) →
        image_types_lookup t = product_showcase_config) := by
  intro name t th i
  refine ⟨?_, fun hth => ?_, fun ht => image_types_lookup_unknown t ht⟩
  · have h1 := generate_prompt_length_split name t th i
    have h2 := (generate_prompt_base_bounds t th i).1
    omega
  · have htech : themeFor "technology" = technology_theme := rfl
    unfold generate_prompt selectedStyle selectedEnvironment selectedLighting
    rw [themeFor_unknown th hth, htech]

theorem generate_prompt_total_witness :
    generate_prompt "x" "banner" "gardening" 1 =
      generate_prompt "x" "banner" "technology" 1 ∧
    image_types_lookup "banner" = product_showcase_config :=
  ⟨(generate_prompt_total "x" "banner" "gardening" 1).2.1 (by decide),
   (generate_prompt_total "x" "banner" "gardening" 1).2.2 (by decide)⟩
